import Mathlib

/-!
Verification development for the SNP500 Prediction Model repository: a shallow
embedding of the dashboard view helpers (sentiment classification, trade P&L
rendering, total-return display, trade sorting, similar-article loading) and of
the backend engine components described by the specification (signal
generation, portfolio simulation, performance metrics, vector index
persistence), together with theorems settling the stated properties.
Monetary amounts and scores are modelled as rationals.
-/

/-- Sentiment CSS class returned by the view helpers. -/
inductive SentClass
  | positive
  | negative
  | neutral
deriving DecidableEq, Repr

/-- Sentiment label returned by the view helpers. -/
inductive SentLabel
  | veryBullish
  | bullish
  | veryBearish
  | bearish
  | neutral
deriving DecidableEq, Repr

/-- Embedding of getSentimentClass from the Realtime component
(src/unnamed/part_002, lines 131-135). -/
def getSentimentClassRealtime (score : ℚ) : SentClass :=
  if score > 1/10 then SentClass.positive
  else if score < -(1/10) then SentClass.negative
  else SentClass.neutral

/-- Embedding of getSentimentLabel from the Realtime component
(src/unnamed/part_002, lines 137-143). -/
def getSentimentLabelRealtime (score : ℚ) : SentLabel :=
  if score > 1/2 then SentLabel.veryBullish
  else if score > 1/10 then SentLabel.bullish
  else if score < -(1/2) then SentLabel.veryBearish
  else if score < -(1/10) then SentLabel.bearish
  else SentLabel.neutral

/-- Embedding of getSentimentClass from RealtimePredictionDetail.js
(lines 34-38). -/
def getSentimentClassPredDetail (score : ℚ) : SentClass :=
  if score > 1/10 then SentClass.positive
  else if score < -(1/10) then SentClass.negative
  else SentClass.neutral

/-- Embedding of getSentimentLabel from RealtimePredictionDetail.js
(lines 40-46). -/
def getSentimentLabelPredDetail (score : ℚ) : SentLabel :=
  if score > 1/2 then SentLabel.veryBullish
  else if score > 1/10 then SentLabel.bullish
  else if score < -(1/2) then SentLabel.veryBearish
  else if score < -(1/10) then SentLabel.bearish
  else SentLabel.neutral

/-- Embedding of getSentimentClass from the Day detail component
(src/unnamed/part_004, lines 129-133). -/
def getSentimentClassDayView (score : ℚ) : SentClass :=
  if score > 1/10 then SentClass.positive
  else if score < -(1/10) then SentClass.negative
  else SentClass.neutral

/-- Embedding of getSentimentLabel from the Day detail component
(src/unnamed/part_004, lines 135-141). -/
def getSentimentLabelDayView (score : ℚ) : SentLabel :=
  if score > 1/2 then SentLabel.veryBullish
  else if score > 1/10 then SentLabel.bullish
  else if score < -(1/2) then SentLabel.veryBearish
  else if score < -(1/10) then SentLabel.bearish
  else SentLabel.neutral

/-- Outcome of an HTTP request as seen by a component: the parsed response
body on success, or the error branch of the catch. -/
inductive FetchOutcome (α : Type)
  | ok (data : α)
  | err (message : String)

/-- Historical similar article as consumed by the Day view dropdown. -/
structure SimilarArticle where
  date_publish : String
  title : String
  description : String
  similarity_score : Option ℚ
  ticker_metadata : List (String × ℚ)
deriving DecidableEq, Repr

/-- Embedding of loadSimilarArticles (Day.js lines 39-57 and
src/unnamed/part_004 lines 94-112): the value stored into similarArticlesData
for the requested sentiment id — the response list on success, and the empty
list on any request error (the catch branch logs and stores []). -/
def loadSimilarArticlesResult (r : FetchOutcome (List SimilarArticle)) :
    List SimilarArticle :=
  match r with
  | FetchOutcome.ok arts => arts
  | FetchOutcome.err _ => []

/-- What the similar-articles dropdown shows for a stored list. -/
inductive SimilarDisplay
  | articles (l : List SimilarArticle)
  | noneFound
deriving DecidableEq

/-- Embedding of the dropdown rendering (Day.js lines 352-393): a non-empty
stored list renders the article list, otherwise the view shows the
no-similar-articles message. -/
def renderSimilarArticles (stored : List SimilarArticle) : SimilarDisplay :=
  if stored.isEmpty then SimilarDisplay.noneFound
  else SimilarDisplay.articles stored

/-- What the JSX expression of the trade P&L slot renders: nothing (the
value null, which React ignores), a stray numeric text node (a falsy number
short-circuited by the guard, which React renders as its text), or the P&L
span with its sign class and value. -/
inductive PnlRender
  | nothing
  | textNode (v : ℚ)
  | span (positive : Bool) (v : ℚ)
deriving DecidableEq, Repr

/-- Whether a rendered P&L slot is the actual P&L span. -/
def isPnlSpan : PnlRender → Bool
  | PnlRender.span _ _ => true
  | _ => false

/-- Embedding of the Day view trade P&L slot (Day.js lines 214-218 and
614-618), the JSX expression trade.pnl && (span): with pnl null the guard
yields null, which React renders as nothing; with pnl a falsy number — 0 —
the guard short-circuits to that number, which React renders as a stray
text node; otherwise the span is rendered with the sign class (positive
when the value is nonnegative) and the value. -/
def tradePnlEntry (pnl : Option ℚ) : PnlRender :=
  match pnl with
  | none => PnlRender.nothing
  | some v => if v = 0 then PnlRender.textNode v
              else PnlRender.span (decide (0 ≤ v)) v

/-- Time at which a trade is executed. -/
inductive TradeTime
  | market_open
  | market_close
deriving DecidableEq, Repr

/-- Action of a trade. -/
inductive TradeAction
  | buy
  | sell
deriving DecidableEq, Repr

/-- Trade record as rendered by the Day view and produced by the simulator. -/
structure Trade where
  ticker : String
  action : TradeAction
  shares : ℚ
  price : ℚ
  time : TradeTime
  total_value : ℚ
  pnl : Option ℚ
deriving DecidableEq, Repr

/-- Embedding of the Day view trade comparator (Day.js lines 191-196 and
591-596): market_open before market_close, 0 otherwise. -/
def tradeCmp (a b : Trade) : Int :=
  if a.time = TradeTime.market_open ∧ b.time = TradeTime.market_close then -1
  else if a.time = TradeTime.market_close ∧ b.time = TradeTime.market_open then 1
  else 0

/-- Nonpositive-comparator test used by the stable sort. -/
def tradeLe (a b : Trade) : Bool :=
  decide (tradeCmp a b ≤ 0)

/-- Stable insertion of an element in front of the first element it may
precede. -/
def insertLe {α : Type} (le : α → α → Bool) (a : α) : List α → List α
  | [] => [a]
  | b :: l => if le a b then a :: b :: l else b :: insertLe le a l

/-- Stable insertion sort; with a consistent comparator this realizes the
ECMAScript stable Array.prototype.sort semantics. -/
def sortByLe {α : Type} (le : α → α → Bool) (l : List α) : List α :=
  l.foldr (insertLe le) []

/-- Embedding of the Day view trades sort: daily_summary.trades.sort with the
market_open-first comparator, modelled as a stable sort (Array.prototype.sort
is stable per the ECMAScript specification). -/
def sortTrades (l : List Trade) : List Trade :=
  sortByLe tradeLe l

/-- Daily ledger entry of a Simulation, one per simulated trading day. -/
structure DailyRecap where
  date : String
  starting_money : ℚ
  ending_money : ℚ
  daily_pnl : ℚ
  daily_return_pct : ℚ
  trades : List Trade
  num_long_positions : ℕ
  num_short_positions : ℕ
deriving DecidableEq, Repr, Inhabited

/-- Embedding of the Simulation view total-return computation
(src/unnamed/part_003, lines 159-161 and 492-494): firstDay is
daily_data[0], lastDay is daily_data[daily_data.length - 1], and
totalReturn = (lastDay.ending_money - firstDay.starting_money) /
firstDay.starting_money * 100. The view reaches this code only when
daily_data is nonempty. -/
def totalReturn (daily_data : List DailyRecap) : ℚ :=
  let firstDay := daily_data.getD 0 default
  let lastDay := daily_data.getD (daily_data.length - 1) default
  (lastDay.ending_money - firstDay.starting_money) / firstDay.starting_money * 100

/-- Statement of the specification formula for the total return, written with
the first and the last element of the sequence: (last.ending_money −
first.starting_money) / first.starting_money × 100. -/
def specTotalReturn (daily_data : List DailyRecap) : ℚ :=
  (daily_data.getLastI.ending_money - daily_data.headI.starting_money)
    / daily_data.headI.starting_money * 100

/-- Sentiment label attached to one (article, ticker) pair. -/
inductive Sentiment
  | positive
  | negative
  | neutral
deriving DecidableEq, Repr

/-- Sentiment record produced by the extractor for one affected ticker. -/
structure SentimentRecord where
  news_item_id : ℕ
  ticker : String
  sentiment_label : Sentiment
deriving DecidableEq, Repr

/-- Per-ticker aggregated signal. -/
structure Signal where
  ticker : String
  net_sentiment : ℤ
  positive_count : ℕ
  negative_count : ℕ
  total_articles : ℕ
deriving DecidableEq, Repr

/-- Snapshot of balanced long and short signals for one prediction window. -/
structure TradingSignals where
  timestamp : String
  long_signals : List Signal
  short_signals : List Signal
  market_sentiment : ℚ
deriving DecidableEq, Repr

/-- Distinct tickers mentioned by the records of the window. -/
def tickersIn (records : List SentimentRecord) : List String :=
  (records.map SentimentRecord.ticker).dedup

/-- Number of records of the window carrying the given ticker and label. -/
def countLabel (records : List SentimentRecord) (t : String) (s : Sentiment) : ℕ :=
  (records.filter (fun r => decide (r.ticker = t ∧ r.sentiment_label = s))).length

/-- Aggregated signal of one ticker: positive, negative and neutral counts,
net sentiment = positive − negative, total articles = sum of the three. -/
def signalFor (records : List SentimentRecord) (t : String) : Signal :=
  let p := countLabel records t Sentiment.positive
  let n := countLabel records t Sentiment.negative
  let z := countLabel records t Sentiment.neutral
  { ticker := t
    net_sentiment := (p : ℤ) - (n : ℤ)
    positive_count := p
    negative_count := n
    total_articles := p + n + z }

/-- All per-ticker candidate signals of the window. -/
def signalCandidates (records : List SentimentRecord) : List Signal :=
  (tickersIn records).map (signalFor records)

/-- Ordering of the long side: descending net sentiment, ties broken by
higher total_articles, then lexicographically by ticker. -/
def longBefore (a b : Signal) : Bool :=
  decide (b.net_sentiment < a.net_sentiment ∨
    (a.net_sentiment = b.net_sentiment ∧
      (b.total_articles < a.total_articles ∨
        (a.total_articles = b.total_articles ∧ a.ticker ≤ b.ticker))))

/-- Ordering of the short side: ascending net sentiment (most negative
first), ties broken by higher total_articles, then by ticker. -/
def shortBefore (a b : Signal) : Bool :=
  decide (a.net_sentiment < b.net_sentiment ∨
    (a.net_sentiment = b.net_sentiment ∧
      (b.total_articles < a.total_articles ∨
        (a.total_articles = b.total_articles ∧ a.ticker ≤ b.ticker))))

/-- Modelled from the spec: the Signal Generator
(models/base_sentiment_model.py is absent from src, only the dashboard that
consumes its persisted output is present). Follows section 4.2 of the
specification: group the records of the window by ticker with positive,
negative and neutral counts and net sentiment = positive − negative; a
ticker qualifies as a long candidate with positive net sentiment and as a
short candidate with negative net sentiment (section 8 scenario); sort each
side with the documented tie-breaks, take the top K, then truncate both
lists to the smaller length so the snapshot stays balanced; market
sentiment is the mean net sentiment over all tickers of the window and 0
for an empty window. -/
def generateSignals (ts : String) (records : List SentimentRecord) (K : ℕ) :
    TradingSignals :=
  let cands := signalCandidates records
  let longs := (sortByLe longBefore
    (cands.filter (fun s => decide (0 < s.net_sentiment)))).take K
  let shorts := (sortByLe shortBefore
    (cands.filter (fun s => decide (s.net_sentiment < 0)))).take K
  let m := min longs.length shorts.length
  { timestamp := ts
    long_signals := longs.take m
    short_signals := shorts.take m
    market_sentiment :=
      if cands.length = 0 then 0
      else (cands.map (fun s => (s.net_sentiment : ℚ))).sum / (cands.length : ℚ) }

/-- Input of one simulated trading day: the signals of the window and the
open and close prices keyed by ticker. -/
structure DayInput where
  date : String
  signals : TradingSignals
  open_prices : List (String × ℚ)
  close_prices : List (String × ℚ)

/-- Long and short tickers of the day that have both an open and a close
price; a ticker with a missing price is skipped, not fatal. -/
def tradable (prices_open prices_close : List (String × ℚ))
    (sigs : List Signal) : List (String × ℚ × ℚ) :=
  sigs.filterMap (fun s =>
    match prices_open.lookup s.ticker, prices_close.lookup s.ticker with
    | some o, some c => some (s.ticker, o, c)
    | _, _ => none)

/-- Modelled from the spec: one day of the Portfolio Simulator
(models/stock_simulation.py is absent from src). Follows section 4.3: at
open, allocate an equal-weight notional per position, buy each long and
sell each short at the open price, recording trades with time market_open
and no pnl; at close, close every position at the close price, recording
trades with time market_close and realized pnl = (close − open) × shares
for longs and the negation for shorts; daily_pnl is the sum of the trade
pnls, ending_money = starting_money + daily_pnl, daily_return_pct =
daily_pnl / starting_money × 100. -/
def simDay (cash : ℚ) (d : DayInput) : DailyRecap :=
  let longs := tradable d.open_prices d.close_prices d.signals.long_signals
  let shorts := tradable d.open_prices d.close_prices d.signals.short_signals
  let n := longs.length + shorts.length
  let notional := if n = 0 then 0 else cash / (n : ℚ)
  let openTrades :=
    longs.map (fun p =>
      { ticker := p.1, action := TradeAction.buy, shares := notional / p.2.1,
        price := p.2.1, time := TradeTime.market_open,
        total_value := notional / p.2.1 * p.2.1, pnl := none : Trade }) ++
    shorts.map (fun p =>
      { ticker := p.1, action := TradeAction.sell, shares := notional / p.2.1,
        price := p.2.1, time := TradeTime.market_open,
        total_value := notional / p.2.1 * p.2.1, pnl := none : Trade })
  let closeTrades :=
    longs.map (fun p =>
      { ticker := p.1, action := TradeAction.sell, shares := notional / p.2.1,
        price := p.2.2, time := TradeTime.market_close,
        total_value := notional / p.2.1 * p.2.2,
        pnl := some ((p.2.2 - p.2.1) * (notional / p.2.1)) : Trade }) ++
    shorts.map (fun p =>
      { ticker := p.1, action := TradeAction.buy, shares := notional / p.2.1,
        price := p.2.2, time := TradeTime.market_close,
        total_value := notional / p.2.1 * p.2.2,
        pnl := some (-((p.2.2 - p.2.1) * (notional / p.2.1))) : Trade })
  let pnl := (closeTrades.filterMap Trade.pnl).sum
  { date := d.date
    starting_money := cash
    ending_money := cash + pnl
    daily_pnl := pnl
    daily_return_pct := pnl / cash * 100
    trades := openTrades ++ closeTrades
    num_long_positions := longs.length
    num_short_positions := shorts.length }

/-- Modelled from the spec: the day-by-day simulation loop
(models/stock_simulation.py is absent from src). Each day starts with the
ending money of the previous day (section 4.3 step 4). -/
def runSimulation (cash : ℚ) : List DayInput → List DailyRecap
  | [] => []
  | d :: ds =>
      let r := simDay cash d
      r :: runSimulation r.ending_money ds

/-- Arithmetic mean of a list of rationals (0 for the empty list, since in
the rationals division by zero returns 0). -/
def meanQ (xs : List ℚ) : ℚ :=
  xs.sum / (xs.length : ℚ)

/-- Population variance of a list of rationals. -/
def varianceQ (xs : List ℚ) : ℚ :=
  ((xs.map (fun x => (x - meanQ xs) ^ 2)).sum) / (xs.length : ℚ)

/-- Modelled from the spec: the Sharpe ratio of the Performance Analyzer
(models/stock_simulation.py is absent from src). Follows section 4.4:
sharpe = mean(daily_return_pct) / stdev(daily_return_pct) × sqrt(252),
with population standard deviation as the documented model choice; a
single-day (or empty) simulation and a zero standard deviation both yield
0 instead of a division by zero. The numeric square root of the host
language is passed in as a black-box function. -/
def sharpeRatio (sqrt : ℚ → ℚ) (recaps : List DailyRecap) : ℚ :=
  let rs := recaps.map DailyRecap.daily_return_pct
  if rs.length ≤ 1 then 0
  else
    let sd := sqrt (varianceQ rs)
    if sd = 0 then 0 else meanQ rs / sd * sqrt 252

/-- Stub square root used by concrete evaluations: exact on 0. -/
def sqrtStub (q : ℚ) : ℚ :=
  if q = 0 then 0 else 1

/-- Payload record addressed by a positional faiss id. -/
structure VectorRecord where
  faiss_id : ℕ
  news_item_id : ℕ
  date_publish : String
  title : String
  description : String
  ticker_metadata : List (String × ℚ)
deriving DecidableEq, Repr

/-- In-memory vector index: embedding dimension, vectors by position, and
the id-to-payload mapping kept beside the index. -/
structure VIndex where
  dim : ℕ
  vectors : List (List ℚ)
  mapping : List VectorRecord
deriving DecidableEq, Repr

/-- The two persisted artifacts: the index file (dimension and the vectors
flattened in position order) and the id-mapping file. -/
structure PersistedArtifacts where
  dim : ℕ
  flat : List ℚ
  mapping : List VectorRecord
deriving DecidableEq, Repr

/-- Splits a flat buffer into consecutive chunks of d entries. -/
def chunksOf (d : ℕ) : List ℚ → List (List ℚ)
  | [] => []
  | x :: xs =>
      if _h : d = 0 then []
      else (x :: xs).take d :: chunksOf d ((x :: xs).drop d)
termination_by l => l.length
decreasing_by simp [List.length_drop]; omega

/-- Modelled from the spec: persisting the index (section 4.5; the builder
code is absent from src). The vectors are written in position order into
the index artifact and the id mapping is written beside it. -/
def persistIndex (idx : VIndex) : PersistedArtifacts :=
  { dim := idx.dim, flat := idx.vectors.flatten, mapping := idx.mapping }

/-- Modelled from the spec: reloading the persisted artifacts (section 4.5).
A corrupt index file — a buffer that does not divide into vectors of the
stored dimension — loads as none rather than as an index. -/
def loadIndex (p : PersistedArtifacts) : Option VIndex :=
  if p.dim = 0 then none
  else if p.flat.length % p.dim ≠ 0 then none
  else some { dim := p.dim, vectors := chunksOf p.dim p.flat, mapping := p.mapping }

/-- Squared euclidean distance of two embedding vectors. -/
def sqDist (a b : List ℚ) : ℚ :=
  (List.zipWith (fun x y => (x - y) ^ 2) a b).sum

/-- Similarity score normalized into [0, 1], 1 for an exact match. -/
def simScore (a b : List ℚ) : ℚ :=
  1 / (1 + sqDist a b)

/-- Ranking of search hits: descending score, ties broken by position id. -/
def rankBefore (a b : ℕ × ℚ) : Bool :=
  decide (b.2 < a.2 ∨ (a.2 = b.2 ∧ a.1 ≤ b.1))

/-- Modelled from the spec: search over the index (section 4.5): score every
stored vector against the query, rank by similarity descending with a
deterministic tie-break, and return the first k ids with their scores. -/
def searchIndex (idx : VIndex) (q : List ℚ) (k : ℕ) : List (ℕ × ℚ) :=
  (sortByLe rankBefore (idx.vectors.enum.map (fun p => (p.1, simScore q p.2)))).take k

/-- Search ids and scores observed after persisting and reloading the index:
none when the reload reports the artifacts unavailable. -/
def searchAfterReload (idx : VIndex) (q : List ℚ) (k : ℕ) :
    Option (List (ℕ × ℚ)) :=
  (loadIndex (persistIndex idx)).map (fun idx2 => searchIndex idx2 q k)

/-- Concrete long signal used by concrete evaluations. -/
def wLongSignal : Signal :=
  { ticker := "AAPL"
    net_sentiment := 2
    positive_count := 2
    negative_count := 0
    total_articles := 2 }

/-- Concrete short signal used by concrete evaluations. -/
def wShortSignal : Signal :=
  { ticker := "MSFT"
    net_sentiment := -1
    positive_count := 0
    negative_count := 1
    total_articles := 1 }

/-- Concrete two-day input, continued: first day. -/
def wDay1 : DayInput :=
  { date := "2022-01-03"
    signals :=
      { timestamp := "2022-01-03T09:30:00"
        long_signals := [wLongSignal]
        short_signals := [wShortSignal]
        market_sentiment := 1/2 }
    open_prices := [("AAPL", 150), ("MSFT", 300)]
    close_prices := [("AAPL", 153), ("MSFT", 297)] }

/-- Concrete two-day input, continued: second day, with no signals. -/
def wDay2 : DayInput :=
  { date := "2022-01-04"
    signals :=
      { timestamp := "2022-01-04T09:30:00"
        long_signals := []
        short_signals := []
        market_sentiment := 0 }
    open_prices := []
    close_prices := [] }

/-- The two-day input list. -/
def wDays : List DayInput :=
  [wDay1, wDay2]

/-- Concrete daily ledger entry used by concrete evaluations. -/
def wRecapA : DailyRecap :=
  { date := "2022-01-03"
    starting_money := 100000
    ending_money := 100300
    daily_pnl := 300
    daily_return_pct := 3/10
    trades := []
    num_long_positions := 1
    num_short_positions := 1 }

/-- Concrete daily ledger entry used by concrete evaluations, second day. -/
def wRecapB : DailyRecap :=
  { date := "2022-01-04"
    starting_money := 100300
    ending_money := 100100
    daily_pnl := -200
    daily_return_pct := -200/1003
    trades := []
    num_long_positions := 1
    num_short_positions := 1 }

/-- Concrete two-entry daily ledger used by concrete evaluations. -/
def wRecaps : List DailyRecap :=
  [wRecapA, wRecapB]

/-- Concrete payload record used by concrete evaluations. -/
def wRecord0 : VectorRecord :=
  { faiss_id := 0
    news_item_id := 10
    date_publish := "2022-05-01"
    title := "a"
    description := "b"
    ticker_metadata := [("AAPL", 2)] }

/-- Concrete payload record used by concrete evaluations, second record. -/
def wRecord1 : VectorRecord :=
  { faiss_id := 1
    news_item_id := 11
    date_publish := "2022-06-01"
    title := "c"
    description := "d"
    ticker_metadata := [("MSFT", -1)] }

/-- Concrete two-vector index used by concrete evaluations. -/
def wIndex : VIndex :=
  { dim := 2
    vectors := [[1, 0], [0, 1]]
    mapping := [wRecord0, wRecord1] }

theorem mem_insertLe {α : Type} (le : α → α → Bool) (a x : α) (l : List α) :
    x ∈ insertLe le a l ↔ x = a ∨ x ∈ l := by
  induction l with
  | nil => simp [insertLe]
  | cons b t ih =>
      simp only [insertLe]
      split
      · simp
      · simp [ih]; tauto

theorem mem_sortByLe {α : Type} (le : α → α → Bool) (x : α) (l : List α) :
    x ∈ sortByLe le l ↔ x ∈ l := by
  induction l with
  | nil => simp [sortByLe]
  | cons a t ih =>
      simp [sortByLe, List.foldr] at ih ⊢
      rw [mem_insertLe]
      tauto

theorem insertLe_of_open (a : Trade) (ha : a.time = TradeTime.market_open)
    (l : List Trade) : insertLe tradeLe a l = a :: l := by
  cases l with
  | nil => rfl
  | cons b t =>
      have hle : tradeLe a b = true := by
        cases hb : b.time <;> simp [tradeLe, tradeCmp, ha, hb]
      simp [insertLe, hle]

theorem insertLe_of_close (a : Trade) (ha : a.time = TradeTime.market_close)
    (os cs : List Trade) (hos : ∀ b ∈ os, b.time = TradeTime.market_open)
    (hcs : ∀ c ∈ cs, c.time = TradeTime.market_close) :
    insertLe tradeLe a (os ++ cs) = os ++ a :: cs := by
  induction os with
  | nil =>
      cases cs with
      | nil => rfl
      | cons c t =>
          have hc : c.time = TradeTime.market_close := hcs c (by simp)
          have hle : tradeLe a c = true := by simp [tradeLe, tradeCmp, ha, hc]
          simp [insertLe, hle]
  | cons o os ih =>
      have ho : o.time = TradeTime.market_open := hos o (by simp)
      have hle : tradeLe a o = false := by simp [tradeLe, tradeCmp, ha, ho]
      simp only [List.cons_append, List.append_eq, insertLe, hle,
        Bool.false_eq_true, if_false]
      rw [ih (fun b hb => hos b (by simp [hb]))]

theorem sortTrades_filter_split (l : List Trade) :
    sortTrades l
      = l.filter (fun t => decide (t.time = TradeTime.market_open))
        ++ l.filter (fun t => decide (t.time = TradeTime.market_close)) := by
  induction l with
  | nil => rfl
  | cons a t ih =>
      have step : sortTrades (a :: t) = insertLe tradeLe a (sortTrades t) := rfl
      rw [step, ih]
      cases ha : a.time with
      | market_open =>
          rw [insertLe_of_open a ha]
          simp [List.filter, ha]
      | market_close =>
          rw [insertLe_of_close a ha _ _
            (fun b hb => by
              have := List.of_mem_filter hb
              simpa using this)
            (fun c hc => by
              have := List.of_mem_filter hc
              simpa using this)]
          simp [List.filter, ha]

theorem map_time_eq_replicate {β : Type} (f : β → Trade) (tt : TradeTime)
    (hf : ∀ x, (f x).time = tt) (l : List β) :
    (l.map f).map Trade.time = List.replicate l.length tt := by
  refine List.eq_replicate_iff.2 ⟨by simp, ?_⟩
  intro b hb
  rcases List.mem_map.1 hb with ⟨x, hx, rfl⟩
  rcases List.mem_map.1 hx with ⟨y, _hy, rfl⟩
  exact hf y

/-- C8: every market_open trade precedes every market_close trade, both as
recorded by the simulator — each day records its open trades, then its
close trades — and as displayed by the Day view after its sort; the sort,
being stable, preserves the relative order of trades sharing the same time
value: the sorted list is exactly the open trades in their original order
followed by the close trades in their original order, so its time
projection is a block of market_open followed by a block of
market_close. -/
theorem day_trades_sort_open_before_close (l : List Trade) (cash : ℚ)
    (d : DayInput) :
    sortTrades l
      = l.filter (fun t => decide (t.time = TradeTime.market_open))
        ++ l.filter (fun t => decide (t.time = TradeTime.market_close)) ∧
    (sortTrades l).map Trade.time
      = List.replicate (l.filter (fun t => decide (t.time = TradeTime.market_open))).length
          TradeTime.market_open
        ++ List.replicate (l.filter (fun t => decide (t.time = TradeTime.market_close))).length
          TradeTime.market_close ∧
    ((simDay cash d).trades).map Trade.time
      = List.replicate
          ((simDay cash d).num_long_positions + (simDay cash d).num_short_positions)
          TradeTime.market_open
        ++ List.replicate
          ((simDay cash d).num_long_positions + (simDay cash d).num_short_positions)
          TradeTime.market_close := by
  refine ⟨sortTrades_filter_split l, ?_, ?_⟩
  case refine_2 =>
    simp only [simDay]
    rw [List.map_append, List.map_append, List.map_append]
    rw [map_time_eq_replicate _ TradeTime.market_open (fun x => rfl),
      map_time_eq_replicate _ TradeTime.market_open (fun x => rfl),
      map_time_eq_replicate _ TradeTime.market_close (fun x => rfl),
      map_time_eq_replicate _ TradeTime.market_close (fun x => rfl)]
    rw [List.replicate_add, List.replicate_add]
  rw [sortTrades_filter_split l, List.map_append]
  congr 1
  · refine List.eq_replicate_iff.2 ⟨by simp, ?_⟩
    intro b hb
    rcases List.mem_map.1 hb with ⟨x, hx, rfl⟩
    simpa using List.of_mem_filter hx
  · refine List.eq_replicate_iff.2 ⟨by simp, ?_⟩
    intro b hb
    rcases List.mem_map.1 hb with ⟨x, hx, rfl⟩
    simpa using List.of_mem_filter hx

/-- C9: for every numeric sentiment score the three textual copies of the
sentiment helpers (Realtime component, RealtimePredictionDetail, Day detail
component) agree pointwise, and the class and label helpers are consistent:
class positive exactly for labels Bullish or Very Bullish, class negative
exactly for Bearish or Very Bearish, class neutral exactly for label
Neutral. -/
theorem sentiment_helper_copies_agree (s : ℚ) :
    (getSentimentClassRealtime s = getSentimentClassPredDetail s ∧
     getSentimentClassRealtime s = getSentimentClassDayView s ∧
     getSentimentLabelRealtime s = getSentimentLabelPredDetail s ∧
     getSentimentLabelRealtime s = getSentimentLabelDayView s) ∧
    (getSentimentClassRealtime s = SentClass.positive ↔
      getSentimentLabelRealtime s = SentLabel.bullish ∨
      getSentimentLabelRealtime s = SentLabel.veryBullish) ∧
    (getSentimentClassRealtime s = SentClass.negative ↔
      getSentimentLabelRealtime s = SentLabel.bearish ∨
      getSentimentLabelRealtime s = SentLabel.veryBearish) ∧
    (getSentimentClassRealtime s = SentClass.neutral ↔
      getSentimentLabelRealtime s = SentLabel.neutral) := by
  refine ⟨⟨rfl, rfl, rfl, rfl⟩, ?_, ?_, ?_⟩ <;>
    unfold getSentimentClassRealtime getSentimentLabelRealtime <;>
    split_ifs <;> simp_all <;> linarith

/-- C10 counterexample: at the concrete input pnl = 0 the guard
trade.pnl && (span) evaluates to the falsy number 0, which React renders as
a stray "0" text node, while pnl = null renders nothing at all — the two
render results differ, refuting the claimed indistinguishability of a
zero-pnl trade from a trade with unpopulated pnl. -/
theorem zero_pnl_distinguishable_from_null :
    tradePnlEntry (some 0) = PnlRender.textNode 0 ∧
    tradePnlEntry none = PnlRender.nothing ∧
    tradePnlEntry (some 0) ≠ tradePnlEntry none :=
  ⟨rfl, rfl, by decide⟩

/-- C10 amended: a trade whose pnl is exactly 0 renders no P&L span — in
that one respect like a trade whose pnl is null — but the falsy number 0
short-circuits the guard and is rendered by React as a stray "0" text
node, which a null pnl is not, so a closed trade with zero realized P&L is
distinguishable at this interface from a trade whose pnl was never
populated. -/
theorem zero_pnl_no_span_but_stray_zero :
    isPnlSpan (tradePnlEntry (some 0)) = false ∧
    isPnlSpan (tradePnlEntry none) = false ∧
    tradePnlEntry (some 0) = PnlRender.textNode 0 ∧
    tradePnlEntry none = PnlRender.nothing ∧
    tradePnlEntry (some 0) ≠ tradePnlEntry none :=
  ⟨rfl, rfl, rfl, rfl, by decide⟩

/-- C6 counterexample: a failed similar-articles request is stored as the
empty list, so at a concrete failing input the caller observes exactly the
same stored data and the same rendered outcome as a genuine zero-match
response — refuting the claim that failures are distinguishable from empty
results. -/
theorem failure_presented_as_empty :
    loadSimilarArticlesResult (FetchOutcome.err "Network Error") =
      ([] : List SimilarArticle) ∧
    loadSimilarArticlesResult (FetchOutcome.err "Network Error") =
      loadSimilarArticlesResult (FetchOutcome.ok []) ∧
    renderSimilarArticles
        (loadSimilarArticlesResult (FetchOutcome.err "Network Error")) =
      renderSimilarArticles (loadSimilarArticlesResult (FetchOutcome.ok [])) :=
  ⟨rfl, rfl, rfl⟩

/-- C6 amended: whenever the similar-articles request fails, the Day view
stores the empty list for that sentiment id, so the failure is presented
identically to a genuine zero-match result (the no-similar-articles
message); the stored data never distinguishes the two. -/
theorem failure_stored_as_empty (e : String) :
    loadSimilarArticlesResult (FetchOutcome.err e) = ([] : List SimilarArticle) ∧
    loadSimilarArticlesResult (FetchOutcome.err e) =
      loadSimilarArticlesResult (FetchOutcome.ok []) ∧
    renderSimilarArticles (loadSimilarArticlesResult (FetchOutcome.err e)) =
      SimilarDisplay.noneFound :=
  ⟨rfl, rfl, rfl⟩

theorem getD_zero_of_ne_nil (l : List DailyRecap) (h : l ≠ []) :
    l.getD 0 default = l.headI := by
  cases l with
  | nil => cases h rfl
  | cons a t => rfl

theorem getD_pred_length_of_ne_nil (l : List DailyRecap) (h : l ≠ []) :
    some (l.getD (l.length - 1) default) = l.getLast? := by
  induction l with
  | nil => cases h rfl
  | cons a t ih =>
      cases t with
      | nil => rfl
      | cons b t2 =>
          rw [List.getLast?_cons_cons]
          have hlen : (a :: b :: t2).length - 1 = (b :: t2).length - 1 + 1 := by
            simp
          rw [hlen, List.getD_cons_succ]
          exact ih (by simp)

/-- C4: for a nonempty daily ledger with nonzero first starting money, the
total return computed and displayed by the Simulation view — built from
daily_data[0] and daily_data[daily_data.length - 1] — equals the
specification formula (last.ending_money − first.starting_money) /
first.starting_money × 100 over the first and last entries. -/
theorem sim_total_return_matches_spec (dd : List DailyRecap) (h : dd ≠ [])
    (_h0 : dd.headI.starting_money ≠ 0) : totalReturn dd = specTotalReturn dd := by
  unfold totalReturn specTotalReturn
  rw [getD_zero_of_ne_nil dd h, List.getLastI_eq_getLast?,
    ← getD_pred_length_of_ne_nil dd h]

/-- Concrete instance of the total-return agreement on a two-day ledger. -/
theorem sim_total_return_matches_spec_witness :
    (wRecaps ≠ []) ∧ (wRecaps.headI.starting_money ≠ 0) ∧
      totalReturn wRecaps = specTotalReturn wRecaps :=
  ⟨by decide, by decide,
    sim_total_return_matches_spec wRecaps (by decide) (by decide)⟩

theorem runSimulation_head_starting (cash : ℚ) (days : List DayInput)
    (h : 0 < (runSimulation cash days).length) :
    ((runSimulation cash days).get ⟨0, h⟩).starting_money = cash := by
  cases days with
  | nil => simp [runSimulation] at h
  | cons d ds => rfl

/-- C1: in every simulation run, the ending money of day N equals the
starting money of day N + 1, for every pair of consecutive entries of the
date-ordered DailyRecap sequence. Modelled from the spec (section 4.3 step
4): the simulator source is absent from src. -/
theorem simulation_money_continuity (cash : ℚ) (days : List DayInput) (i : ℕ)
    (h : i + 1 < (runSimulation cash days).length) :
    ((runSimulation cash days).get ⟨i, Nat.lt_of_succ_lt h⟩).ending_money
      = ((runSimulation cash days).get ⟨i + 1, h⟩).starting_money := by
  induction days generalizing cash i with
  | nil => simp [runSimulation] at h
  | cons d ds ih =>
      cases i with
      | zero =>
          have h0 : 0 < (runSimulation (simDay cash d).ending_money ds).length := by
            simp [runSimulation] at h
            omega
          exact (runSimulation_head_starting (simDay cash d).ending_money ds h0).symm
      | succ n =>
          have h2 : n + 1 < (runSimulation (simDay cash d).ending_money ds).length := by
            simp [runSimulation] at h
            omega
          exact ih (simDay cash d).ending_money n h2

/-- Concrete instance of money continuity on the two-day input. -/
theorem simulation_money_continuity_witness :
    (0 + 1 < (runSimulation 100000 wDays).length) ∧
    ((runSimulation 100000 wDays).get ⟨0, by decide⟩).ending_money
      = ((runSimulation 100000 wDays).get ⟨1, by decide⟩).starting_money :=
  ⟨by decide, simulation_money_continuity 100000 wDays 0 (by decide)⟩

/-- C2: every generated TradingSignals snapshot has exactly as many long
signals as short signals — both sides are truncated to the smaller count,
so in particular an empty side forces the other side empty. Modelled from
the spec (section 4.2): the signal generator source is absent from src. -/
theorem generated_signals_balanced (ts : String)
    (records : List SentimentRecord) (K : ℕ) :
    (generateSignals ts records K).long_signals.length
      = (generateSignals ts records K).short_signals.length := by
  simp [generateSignals, List.length_take]

theorem mem_signalCandidates (records : List SentimentRecord) (s : Signal)
    (h : s ∈ signalCandidates records) : s = signalFor records s.ticker := by
  rcases List.mem_map.1 h with ⟨t, _ht, rfl⟩
  rfl

/-- C3: in every generated TradingSignals snapshot no ticker appears on both
sides — the intersection of the long tickers and the short tickers is empty,
since a ticker qualifies long only with positive net sentiment and short
only with negative net sentiment, and each ticker has a single aggregated
net sentiment in the window. Modelled from the spec (section 4.2): the
signal generator source is absent from src. -/
theorem signals_long_short_disjoint (ts : String)
    (records : List SentimentRecord) (K : ℕ) :
    (((generateSignals ts records K).long_signals.map Signal.ticker).inter
      ((generateSignals ts records K).short_signals.map Signal.ticker)) = [] := by
  rw [List.inter]
  rw [List.filter_eq_nil_iff]
  intro t hl
  simp only [List.elem_eq_mem, Bool.not_eq_true, decide_eq_false_iff_not]
  intro hs
  rcases List.mem_map.1 hl with ⟨s1, hs1, h1t⟩
  rcases List.mem_map.1 hs with ⟨s2, hs2, h2t⟩
  simp only [generateSignals] at hs1 hs2
  have h1 : s1 ∈ signalCandidates records ∧ 0 < s1.net_sentiment := by
    have m1 := List.mem_of_mem_take (List.mem_of_mem_take hs1)
    have m2 := (mem_sortByLe _ _ _).1 m1
    have m3 := List.mem_filter.1 m2
    exact ⟨m3.1, by simpa using m3.2⟩
  have h2 : s2 ∈ signalCandidates records ∧ s2.net_sentiment < 0 := by
    have m1 := List.mem_of_mem_take (List.mem_of_mem_take hs2)
    have m2 := (mem_sortByLe _ _ _).1 m1
    have m3 := List.mem_filter.1 m2
    exact ⟨m3.1, by simpa using m3.2⟩
  have e1 : s1 = signalFor records s1.ticker := mem_signalCandidates records s1 h1.1
  have e2 : s2 = signalFor records s2.ticker := mem_signalCandidates records s2 h2.1
  have eq12 : s1 = s2 := by
    rw [e1, e2, h1t, h2t]
  have hpos := h1.2
  have hneg := h2.2
  rw [← eq12] at hneg
  omega

/-- C5: the Sharpe ratio of the analyzer is 0 whenever the daily returns
have zero standard deviation or the simulation has at most one day — never
a division by zero — and otherwise equals mean(daily_return_pct) /
stdev(daily_return_pct) × sqrt(252). Modelled from the spec (section 4.4):
the analyzer source is absent from src; sqrt is the black-box numeric
square root, assumed exact on 0. -/
theorem sharpe_zero_on_degenerate (sqrt : ℚ → ℚ) (h0 : sqrt 0 = 0)
    (recaps : List DailyRecap) :
    ((varianceQ (recaps.map DailyRecap.daily_return_pct) = 0 ∨ recaps.length ≤ 1) →
      sharpeRatio sqrt recaps = 0) ∧
    (1 < recaps.length →
      sqrt (varianceQ (recaps.map DailyRecap.daily_return_pct)) ≠ 0 →
      sharpeRatio sqrt recaps
        = meanQ (recaps.map DailyRecap.daily_return_pct)
            / sqrt (varianceQ (recaps.map DailyRecap.daily_return_pct))
            * sqrt 252) := by
  constructor
  · intro hcase
    rcases hcase with hv | hlen
    · by_cases hlen : recaps.length ≤ 1
      · simp [sharpeRatio, List.length_map, hlen]
      · simp [sharpeRatio, List.length_map, hlen, hv, h0]
    · simp [sharpeRatio, List.length_map, hlen]
  · intro hlen hsd
    have hnot : ¬ (recaps.length ≤ 1) := by omega
    simp [sharpeRatio, List.length_map, hnot, hsd]

/-- Concrete instance of the degenerate Sharpe guard on a one-day ledger. -/
theorem sharpe_zero_on_degenerate_witness :
    (sqrtStub 0 = 0) ∧
    (varianceQ ([wRecapA].map DailyRecap.daily_return_pct) = 0 ∨
      ([wRecapA] : List DailyRecap).length ≤ 1) ∧
    sharpeRatio sqrtStub [wRecapA] = 0 :=
  ⟨rfl, Or.inr (by decide),
    (sharpe_zero_on_degenerate sqrtStub rfl [wRecapA]).1 (Or.inr (by decide))⟩

theorem flatten_length_mod (d : ℕ) (vs : List (List ℚ))
    (h : ∀ v ∈ vs, v.length = d) : vs.flatten.length % d = 0 := by
  induction vs with
  | nil => simp
  | cons v t ih =>
      have hv : v.length = d := h v (by simp)
      rw [List.flatten_cons, List.length_append, hv, Nat.add_mod_left]
      exact ih (fun w hw => h w (by simp [hw]))

theorem chunksOf_flatten (d : ℕ) (hd : d ≠ 0) (vs : List (List ℚ))
    (h : ∀ v ∈ vs, v.length = d) : chunksOf d vs.flatten = vs := by
  induction vs with
  | nil => simp [chunksOf]
  | cons v t ih =>
      have hv : v.length = d := h v (by simp)
      obtain ⟨x, xs, rfl⟩ : ∃ x xs, v = x :: xs := by
        cases v with
        | nil => simp at hv; omega
        | cons x xs => exact ⟨x, xs, rfl⟩
      rw [List.flatten_cons, List.cons_append]
      rw [chunksOf]
      rw [dif_neg hd, ← List.cons_append, List.take_left' hv, List.drop_left' hv]
      exact congrArg _ (ih (fun w hw => h w (by simp [hw])))

/-- C7: persisting the index and the id mapping and reloading them leaves
search unchanged: the reload returns exactly the pre-persist index, and
search(q, k) after persist-then-reload returns the identical ids and scores
of the pre-persist search, for every query and every k. Modelled from the
spec (section 4.5): the builder and searcher sources are absent from src.
The hypotheses say the index dimension is positive and every stored vector
has that dimension. -/
theorem index_roundtrip_preserves_search (idx : VIndex) (hd : idx.dim ≠ 0)
    (h : ∀ v ∈ idx.vectors, v.length = idx.dim) (q : List ℚ) (k : ℕ) :
    loadIndex (persistIndex idx) = some idx ∧
    searchAfterReload idx q k = some (searchIndex idx q k) := by
  have hload : loadIndex (persistIndex idx) = some idx := by
    unfold loadIndex persistIndex
    simp only [if_neg hd]
    rw [if_neg (by simpa using flatten_length_mod idx.dim idx.vectors h)]
    rw [chunksOf_flatten idx.dim hd idx.vectors h]
  exact ⟨hload, by simp [searchAfterReload, hload]⟩

/-- Concrete instance of the persist-reload round trip on a two-vector
index. -/
theorem index_roundtrip_preserves_search_witness :
    (wIndex.dim ≠ 0) ∧ (∀ v ∈ wIndex.vectors, v.length = wIndex.dim) ∧
    (loadIndex (persistIndex wIndex) = some wIndex ∧
      searchAfterReload wIndex [1, 1] 1 = some (searchIndex wIndex [1, 1] 1)) :=
  ⟨by decide, by decide,
    index_roundtrip_preserves_search wIndex (by decide) (by decide) [1, 1] 1⟩
